import Mathlib

/-!
Verification of the comic-CMS bot (`src/app.py`) against its natural-language
specification.  The Python source is shallowly embedded below: pure helpers
become Lean functions, the SQLite-backed store becomes an explicit record of
lists, each Telegram handler becomes a pure state transformer, and the
`ConversationHandler` dispatch table of `run_bot` becomes an explicit
transition function.  Machine floats only occur as `float(token)` on short
decimal tokens followed by `str(...)`; they are modelled exactly by rationals
plus a canonical decimal rendering, which agrees with CPython for tokens of
up to fifteen significant digits (no exponent notation is ever produced
there).  Python's `re` module `\d` class is modelled as the ASCII digits,
and string comparison/lowercasing are modelled on code points, matching
CPython on the ASCII inputs the application manipulates.
-/

/-! ### `extract_number` (app.py lines 279-281)

`re.findall(r'(\d+\.?\d*)', text)` scanned left to right: a token is a
maximal digit run, optionally followed by one `.` and a further maximal
digit run.  `extract_number` takes the last token as a float, or `-1`
when there is none. -/

/-- Scanner state for the `findall` embedding: outside a token, inside the
integer part, or inside the fractional part.  Accumulators are reversed. -/
inductive ScanSt where
  | outside
  | inInt (acc : List Char)
  | inFrac (acc : List Char)

/-- One left-to-right pass of `re.findall(r'(\d+\.?\d*)', -)` over the
character list, returning the matched tokens in order. -/
def tokensAux : ScanSt → List Char → List (List Char)
  | .outside, [] => []
  | .inInt acc, [] => [acc.reverse]
  | .inFrac acc, [] => [acc.reverse]
  | .outside, c :: cs =>
    if c.isDigit then tokensAux (.inInt [c]) cs else tokensAux .outside cs
  | .inInt acc, c :: cs =>
    if c.isDigit then tokensAux (.inInt (c :: acc)) cs
    else if c = '.' then tokensAux (.inFrac (c :: acc)) cs
    else acc.reverse :: tokensAux .outside cs
  | .inFrac acc, c :: cs =>
    if c.isDigit then tokensAux (.inFrac (c :: acc)) cs
    else acc.reverse :: tokensAux .outside cs

/-- All digit-sequence-with-optional-decimal-point tokens of a string, in
scan order (the embedding of `re.findall(r'(\d+\.?\d*)', text)`). -/
def pyTokens (s : String) : List (List Char) :=
  tokensAux .outside s.data

/-- Numeric value of a digit list, most significant first. -/
def digitsToNat (l : List Char) : Nat :=
  l.foldl (fun acc c => 10 * acc + (c.toNat - 48)) 0

/-- `10 ^ n` as a plain recursion (kept kernel-reducible). -/
def pow10 : Nat → Nat
  | 0 => 1
  | n + 1 => 10 * pow10 n

/-- A decimal number `num / 10 ^ exp`.  The values flowing through
`extract_number` are short decimal tokens (plus the `-1` sentinel), which
IEEE doubles represent with enough precision that comparisons and the
`str` rendering used by the program agree with this exact model. -/
structure DecNum where
  num : Int
  exp : Nat
deriving DecidableEq

/-- Exact rational value of a decimal number. -/
def DecNum.val (d : DecNum) : ℚ :=
  mkRat d.num (pow10 d.exp)

/-- Comparison of two decimal numbers by cross multiplication; agrees with
`DecNum.val _ ≤ DecNum.val _` (proved below) while reducing structurally. -/
def DecNum.leB (a b : DecNum) : Bool :=
  a.num * (pow10 b.exp : Int) ≤ b.num * (pow10 a.exp : Int)

/-- Exact value of one token (shape `digits` or `digits.digits*`);
`float(token)` is modelled exactly. -/
def tokenVal (t : List Char) : DecNum :=
  let ip := t.takeWhile Char.isDigit
  let rest := t.dropWhile Char.isDigit
  let fp := match rest with
    | _ :: fs => fs
    | [] => []
  ⟨(digitsToNat ip * pow10 fp.length + digitsToNat fp : Nat), fp.length⟩

/-- The embedding of `extract_number` (app.py lines 279-281): value of the
last token of the name, or `-1` when the name has no token. -/
def extractNumber (s : String) : DecNum :=
  match (pyTokens s).getLast? with
  | some t => tokenVal t
  | none => ⟨-1, 0⟩

/-- Leading zeros removed, but at least one digit kept. -/
def trimZerosFront (l : List Char) : List Char :=
  match l.dropWhile (· = '0') with
  | [] => ['0']
  | r => r

/-- The embedding of CPython's `str(float(token))` for a token produced by
the scanner: shortest-round-trip decimal rendering, which for tokens of at
most fifteen significant digits is the token's integer part without leading
zeros, then `.`, then its fractional digits without trailing zeros (`.0`
when none remain). -/
def canonFloatStr (t : List Char) : String :=
  let ip := t.takeWhile Char.isDigit
  let rest := t.dropWhile Char.isDigit
  let fp := match rest with
    | _ :: fs => fs
    | [] => []
  let fpT := (fp.reverse.dropWhile (· = '0')).reverse
  if fpT.isEmpty then String.mk (trimZerosFront ip) ++ ".0"
  else String.mk (trimZerosFront ip) ++ "." ++ String.mk fpT

/-- The embedding of `str(extract_number(name))` (app.py line 313):
`str` of the parsed float when a token exists, `str(-1)` otherwise. -/
def chapterNumStr (s : String) : String :=
  match (pyTokens s).getLast? with
  | some t => canonFloatStr t
  | none => "-1"

example : extractNumber "Chapter 10" = ⟨10, 0⟩ := by decide
example : extractNumber "Chapter 1.5" = ⟨15, 1⟩ := by decide
example : extractNumber "Chapter 2" = ⟨2, 0⟩ := by decide
example : extractNumber "cover" = ⟨-1, 0⟩ := by decide
example : extractNumber "v2 Chapter 7.25" = ⟨725, 2⟩ := by decide
example : (extractNumber "Chapter 1.5").leB (extractNumber "Chapter 2") = true := by decide
example : chapterNumStr "Chapter 10" = "10.0" := by decide
example : chapterNumStr "Chapter 1.5" = "1.5" := by decide
example : chapterNumStr "Chapter 0010.500" = "10.5" := by decide

/-! ### Path and string helpers -/

/-- The embedding of `pathlib.PurePath.suffix`: the substring from the last
dot of the name, provided that dot is neither the first nor the last
character; empty otherwise. -/
def pySuffix (name : String) : String :=
  let cs := name.data
  let afterRev := cs.reverse.takeWhile (· ≠ '.')
  if afterRev.length = cs.length then ""
  else
    let i := cs.length - 1 - afterRev.length
    if 0 < i ∧ i < cs.length - 1 then String.mk ('.' :: afterRev.reverse) else ""

/-- ASCII lowering of one character, the embedding of `str.lower` on the
ASCII data the program manipulates. -/
def lowerCh (c : Char) : Char := c.toLower

/-- The embedding of `str.lower`. -/
def lowerStr (s : String) : String := String.mk (s.data.map lowerCh)

/-- `f.suffix.lower() in ['.jpg', '.jpeg', '.png']` (app.py line 298). -/
def isImageEntry (name : String) : Bool :=
  lowerStr (pySuffix name) = ".jpg" ∨ lowerStr (pySuffix name) = ".jpeg"
    ∨ lowerStr (pySuffix name) = ".png"

/-- `fnmatch` of a name against `*.[jJ][pP][gG]` (the pattern of
`d.glob('*.[jJ][pP][gG]')` at app.py line 318): the name ends in a dot
followed by `jpg` in any letter case. -/
def matchGlobJpg (name : String) : Bool :=
  match name.data.reverse with
  | c3 :: c2 :: c1 :: c0 :: _ =>
    c0 = '.' && (c1 = 'j' || c1 = 'J') && (c2 = 'p' || c2 = 'P') && (c3 = 'g' || c3 = 'G')
  | _ => false

/-- `fnmatch` of a name against `*.[pP][nN][gG]` (app.py line 318). -/
def matchGlobPng (name : String) : Bool :=
  match name.data.reverse with
  | c3 :: c2 :: c1 :: c0 :: _ =>
    c0 = '.' && (c1 = 'p' || c1 = 'P') && (c2 = 'n' || c2 = 'N') && (c3 = 'g' || c3 = 'G')
  | _ => false

/-- Lexicographic code-point comparison of character lists; the embedding of
CPython string comparison (used when `sorted` compares paths of one
directory). -/
def charListLe : List Char → List Char → Bool
  | [], _ => true
  | _ :: _, [] => false
  | a :: as, b :: bs =>
    if a.toNat < b.toNat then true
    else if b.toNat < a.toNat then false
    else charListLe as bs

/-- Python string `<=` on whole strings. -/
def strLeB (a b : String) : Bool := charListLe a.data b.data

example : pySuffix "a.jpg" = ".jpg" := by decide
example : pySuffix ".jpg" = "" := by decide
example : pySuffix "noext" = "" := by decide
example : pySuffix "x.tar.gz" = ".gz" := by decide
example : isImageEntry "a.JPeG" = true := by decide
example : matchGlobJpg "a.jpeg" = false := by decide
example : matchGlobJpg "c.JPG" = true := by decide
example : strLeB "b.png" "c.JPG" = true := by decide

/-! ### Stable sorting

CPython's `sorted(l, key=k)` is the stable sort of `l` by `k`;
`List.insertionSort` with the reflexive total relation induced by the key
computes exactly that list, so it is the embedding of `sorted`. -/

/-- `sorted(chapter_dirs, key=lambda d: extract_number(d.name))`
needs folders; a folder is a directory found by `rglob` together with the
names of the plain files directly inside it. -/
structure Folder where
  name : String
  files : List String
deriving DecidableEq

/-- Key relation of app.py line 307. -/
def chapKeyLe (a b : Folder) : Prop :=
  (extractNumber a.name).leB (extractNumber b.name) = true

instance : DecidableRel chapKeyLe := fun a b => by
  unfold chapKeyLe; infer_instance

/-- The embedding of `sorted(chapter_dirs, key=lambda d: extract_number(d.name))`
(app.py line 307). -/
def sortChapterDirs (l : List Folder) : List Folder :=
  l.insertionSort chapKeyLe

/-- Name-comparison relation of the `sorted` call at app.py line 318. -/
def nameLe (a b : String) : Prop := strLeB a b = true

instance : DecidableRel nameLe := fun a b => by
  unfold nameLe; infer_instance

/-- The embedding of
`sorted(list(d.glob('*.[jJ][pP][gG]')) + list(d.glob('*.[pP][nN][gG]')))`
(app.py line 318): the folder's matching file names, sorted. -/
def imageFiles (f : Folder) : List String :=
  (f.files.filter matchGlobJpg ++ f.files.filter matchGlobPng).insertionSort nameLe

/-- `any(f.suffix.lower() in ['.jpg', '.jpeg', '.png'] for f in d.iterdir())`
(app.py line 298). -/
def qualifies (f : Folder) : Bool :=
  f.files.any isImageEntry

example : imageFiles ⟨"Chapter 1", ["b.png", "a.jpg", "c.JPG"]⟩ =
    ["a.jpg", "b.png", "c.JPG"] := by decide
example : qualifies ⟨"Chapter 1", ["a.jpeg"]⟩ = true := by decide
example : imageFiles ⟨"Chapter 1", ["a.jpeg"]⟩ = [] := by decide

/-! ### Data model (app.py lines 43-65)

`Manga` has a unique title; `Chapter` rows point at a manga and carry a
free-form `chapter_number` string; `Page` rows point at a chapter and carry
a page number and an opaque Telegram file id.  The SQLAlchemy cascades
`all, delete-orphan` on `Manga.chapters` and `Chapter.pages` mean deleting
a manga deletes its chapters and their pages, and deleting a chapter
deletes its pages. -/

structure MangaR where
  id : Nat
  title : String
  description : String
  cover_file_id : String
deriving DecidableEq

structure ChapterR where
  id : Nat
  manga_id : Nat
  chapter_number : String
deriving DecidableEq

structure PageR where
  chapter_id : Nat
  page_number : Nat
  file_id : String
deriving DecidableEq

/-- The catalog store: the three SQLite tables plus the autoincrement
counters handed out by `session.flush()` / `session.commit()`. -/
structure DB where
  mangas : List MangaR := []
  chapters : List ChapterR := []
  pages : List PageR := []
  nextMangaId : Nat := 1
  nextChapterId : Nat := 1
deriving DecidableEq

/-- The empty store. -/
def emptyDB : DB := {}

/-- `session.delete(chapter)` (app.py line 379) with the
`all, delete-orphan` cascade on `Chapter.pages`: the chapter row and every
page row of that chapter are removed. -/
def cascadeDeleteChapter (db : DB) (cid : Nat) : DB :=
  { db with
    chapters := db.chapters.filter (fun c => c.id ≠ cid)
    pages := db.pages.filter (fun p => p.chapter_id ≠ cid) }

/-- `session.delete(manga)` (app.py line 415) with the cascades on
`Manga.chapters` and `Chapter.pages`: the manga row, its chapter rows and
the page rows of those chapters are removed. -/
def cascadeDeleteManga (db : DB) (mid : Nat) : DB :=
  let doomed := db.chapters.filter (fun c => c.manga_id = mid)
  { db with
    mangas := db.mangas.filter (fun m => m.id ≠ mid)
    chapters := db.chapters.filter (fun c => c.manga_id ≠ mid)
    pages := db.pages.filter (fun p => ¬ doomed.any (fun c => c.id = p.chapter_id)) }

/-- Referential integrity of the store: every chapter row points at an
existing manga row and every page row points at an existing chapter row. -/
def DBIntegrity (db : DB) : Prop :=
  (∀ c ∈ db.chapters, ∃ m ∈ db.mangas, m.id = c.manga_id) ∧
  (∀ p ∈ db.pages, ∃ c ∈ db.chapters, c.id = p.chapter_id)

instance (db : DB) : Decidable (DBIntegrity db) := by
  unfold DBIntegrity; infer_instance

/-! ### The ZIP importer (`add_chapter_zip_process`, app.py lines 287-348) -/

/-- Message texts sent by the importer (the f-strings of the source with
their interpolation made explicit). -/
def errNoFolders : String :=
  "❌ Error: Could not find any folders with images inside the ZIP file."

def foundMsg (n : Nat) : String :=
  "Found " ++ toString n ++ " chapter folders. Starting upload process..."

def skipMsg (name : String) : String :=
  "⚠️ Skipping folder `" ++ name ++ "` as no chapter number could be found."

def uploadingMsg (num : String) (pages : Nat) : String :=
  "Uploading Chapter " ++ num ++ " with " ++ toString pages ++ " pages..."

def finishedMsg (n : Nat) : String :=
  "✅ Finished! Successfully uploaded " ++ toString n ++ " chapters."

/-- Accumulated effect of the per-folder loop (app.py lines 312-337):
store contents, number of chapters uploaded, number of `session.commit()`
calls made, messages sent so far. -/
structure ImpAcc where
  db : DB
  uploaded : Nat
  commits : Nat
  msgs : List String
deriving DecidableEq

/-- The loop body of app.py lines 312-337, folder by folder.  `relay` is
the external image boundary: `context.bot.send_photo(...)` returning a
stable `file_id` for each uploaded image file. -/
def processFolders (relay : String → String) (mangaId : Nat) :
    ImpAcc → List Folder → ImpAcc
  | acc, [] => acc
  | acc, f :: rest =>
    if (extractNumber f.name).num < 0 then
      processFolders relay mangaId
        { acc with msgs := acc.msgs ++ [skipMsg f.name] } rest
    else
      let imgs := imageFiles f
      if imgs.isEmpty then processFolders relay mangaId acc rest
      else
        let cnum := chapterNumStr f.name
        let cid := acc.db.nextChapterId
        let newPages := imgs.enum.map (fun pr => PageR.mk cid (pr.1 + 1) (relay pr.2))
        let db2 : DB :=
          { acc.db with
            chapters := acc.db.chapters ++ [⟨cid, mangaId, cnum⟩]
            pages := acc.db.pages ++ newPages
            nextChapterId := cid + 1 }
        processFolders relay mangaId
          { db := db2
            uploaded := acc.uploaded + 1
            commits := acc.commits + 1
            msgs := acc.msgs ++ [uploadingMsg cnum imgs.length] } rest

/-- The embedding of `add_chapter_zip_process` after the archive has been
extracted (app.py lines 298-348, with the error paths of the external
boundary out of scope): filter the enumerated directories to those with
image entries, report when none remain, otherwise sort by the extracted
number and run the per-folder loop. -/
def addChapterZipCore (relay : String → String) (mangaId : Nat) (db : DB)
    (dirs : List Folder) : ImpAcc :=
  let chapterDirs := dirs.filter qualifies
  if chapterDirs.isEmpty then
    { db := db, uploaded := 0, commits := 0, msgs := [errNoFolders] }
  else
    let acc := processFolders relay mangaId
      { db := db, uploaded := 0, commits := 0
        msgs := [foundMsg chapterDirs.length] }
      (sortChapterDirs chapterDirs)
    { acc with msgs := acc.msgs ++ [finishedMsg acc.uploaded] }

example :
    (addChapterZipCore id 1 emptyDB
      [⟨"Chapter 2", ["p2.jpg"]⟩, ⟨"Chapter 1", ["p1.jpg"]⟩]).commits = 2 := by
  decide

example :
    ((addChapterZipCore id 1 emptyDB
      [⟨"Chapter 1", ["b.png", "a.jpg", "c.JPG"]⟩]).db.pages.map PageR.file_id) =
    ["a.jpg", "b.png", "c.JPG"] := by decide

/-! ### Slug generator -/

/-- A letter or digit (the character class of the spec's slug rule). -/
def isAlnumA (c : Char) : Bool := c.isAlpha || c.isDigit

/-- Modelled from the spec: `src/app.py` contains no slug logic at all (the
web routes address comics by integer id and the store keys them by exact
title), so the Slug Generator of spec section 4.2 is modelled from the
spec's words: after lowercasing, copy letters and digits and replace each
maximal run of other characters by a single hyphen.  The flag records
whether the scanner is inside such a run. -/
def slugAux : Bool → List Char → List Char
  | _, [] => []
  | inRun, c :: cs =>
    if isAlnumA c then c :: slugAux false cs
    else if inRun then slugAux true cs
    else '-' :: slugAux true cs

/-- Leading and trailing hyphens removed. -/
def stripHyphens (l : List Char) : List Char :=
  ((l.dropWhile (· = '-')).reverse.dropWhile (· = '-')).reverse

/-- Modelled from the spec (section 4.2): lowercase the title, replace every
maximal run of characters that are neither letters nor digits with a single
hyphen, strip leading and trailing hyphens. -/
def slugify (t : String) : String :=
  String.mk (stripHyphens (slugAux false (t.data.map lowerCh)))

example : slugify "A B" = "a-b" := by decide
example : slugify "A-b" = "a-b" := by decide
example : slugify "  Hello, World!  " = "hello-world" := by decide
example : slugify "---" = "" := by decide

/-! ### The conversation engine (app.py lines 121-494) -/

/-- The fourteen `range(14)` conversation states plus the terminal
`ConversationHandler.END`. -/
inductive ConvState where
  | startRoutes
  | addMangaTitleS | addMangaDescS | addMangaCoverS
  | manageSelectManga | manageActionMenuS
  | addChapterMethodS | addChapterNumberS | addChapterPagesS | addChapterZipS
  | updateInfoSelect | updateInfoPrompt
  | deleteChapterSelectS | deleteMangaConfirmS
  | ended
deriving DecidableEq

/-- The transient `context.user_data` fields used by the handlers. -/
structure UserData where
  title : Option String := none
  description : Option String := none
  manga_id : Option Nat := none
  chapter_number : Option String := none
  pages : Option (List String) := none
deriving DecidableEq

/-- `context.user_data.clear()`. -/
def emptyUD : UserData := {}

/-- One incoming Telegram update, decoded: a non-command text message, a
`/name` command, a photo (already reduced to its best file id), a zip
document (already extracted to its directory list), or an inline-button
callback with its data string. -/
inductive Input where
  | text (s : String)
  | command (name : String)
  | photo (fileId : String)
  | document (dirs : List Folder)
  | callback (data : String)
deriving DecidableEq

/-- The filters used in the `ConversationHandler` table of `run_bot`
(app.py lines 450-494). -/
inductive Matcher where
  | textNonCommand
  | photoM
  | docZip
  | commandM (name : String)
  | cbExact (pat : String)
  | cbStarts (pat : String)
deriving DecidableEq

/-- Whether a filter accepts an update.  `cbExact p` stands for the
anchored regex `^p$`, `cbStarts p` for `^p`. -/
def Matcher.accepts : Matcher → Input → Bool
  | .textNonCommand, .text _ => true
  | .photoM, .photo _ => true
  | .docZip, .document _ => true
  | .commandM n, .command m => n = m
  | .cbExact p, .callback d => p = d
  | .cbStarts p, .callback d => p.data.isPrefixOf d.data
  | _, _ => false

/-- Result of one handler run: new store, new session fields, messages
sent, and the returned state — `none` models a Python exception escaping
the handler (python-telegram-bot then keeps the previous state). -/
structure HRes where
  db : DB
  ud : UserData
  msgs : List String
  next : Option ConvState
deriving DecidableEq

/-- Split a character list at underscores (`str.split('_')`). -/
def splitUnderscoreCh : List Char → List (List Char)
  | [] => [[]]
  | c :: cs =>
    match splitUnderscoreCh cs with
    | [] => if c = '_' then [[], [c]] else [[c]]
    | h :: t => if c = '_' then [] :: h :: t else (c :: h) :: t

/-- `s.split('_')`. -/
def splitUnderscore (s : String) : List String :=
  (splitUnderscoreCh s.data).map String.mk

/-- `int(s)` on a nonnegative decimal string, `none` when Python would
raise `ValueError`. -/
def parseNat (s : String) : Option Nat :=
  if s.data ≠ [] ∧ s.data.all Char.isDigit then
    some (digitsToNat s.data)
  else none

example : splitUnderscore "manga_12" = ["manga", "12"] := by decide
example : splitUnderscore "delmanga_yes_7" = ["delmanga", "yes", "7"] := by decide
example : parseNat "12" = some 12 := by decide
example : parseNat "chapter" = none := by decide

/-- Decimal rendering of a natural number (fuel-based so that it reduces
definitionally; the fuel `n + 1` always suffices). -/
def natToStrGo : Nat → Nat → List Char → List Char
  | 0, _, acc => acc
  | fuel + 1, n, acc =>
    let d := Char.ofNat (48 + n % 10)
    if n < 10 then d :: acc else natToStrGo fuel (n / 10) (d :: acc)

/-- `str(n)` for a natural number. -/
def natToStr (n : Nat) : String := String.mk (natToStrGo (n + 1) n [])

example : natToStr 0 = "0" := by decide
example : natToStr 1037 = "1037" := by decide

/-! ### The handlers (app.py lines 131-437)

Each `async def` handler becomes a pure function.  Exception text
interpolated into the `❌ Error:` replies is modelled by fixed marker
strings; everything else is the literal reply text of the source. -/

/-- A handler, as a pure function of the image-relay boundary, the
configured `ADMIN_USER_ID`, the acting user's id, the update, the store and
the session fields. -/
abbrev Handler : Type :=
  (String → String) → Nat → Nat → Input → DB → UserData → HRes

def msgUnauthorized : String := "⛔️ Sorry, you are not authorized to use this bot."

def msgHello : String :=
  "👋 Hello, Admin! Welcome to your Comic CMS Bot.\n\nUse the buttons below to add new series or manage existing ones."

def msgMenu : String :=
  "Welcome! This bot helps you manage your comic website.\n\nWhat would you like to do?"

def msgCancelled : String := "Operation cancelled."

def errDupTitle : String := "❌ Error: UNIQUE constraint failed: manga.title"

def errKeyMsg : String := "❌ Error: KeyError"

/-- `start` (app.py lines 145-161): the only admin check in the program. -/
def startH : Handler := fun _ admin actor _ db ud =>
  if actor ≠ admin then ⟨db, ud, [msgUnauthorized], some .ended⟩
  else ⟨db, ud, [msgHello], some .startRoutes⟩

/-- `to_main_menu` (app.py lines 132-142). -/
def toMainMenuH : Handler := fun _ _ _ _ db ud =>
  ⟨db, ud, [msgMenu], some .startRoutes⟩

/-- `add_manga_start` (app.py lines 164-166). -/
def addMangaStartH : Handler := fun _ _ _ _ db ud =>
  ⟨db, ud, ["Enter the title for the new comic:"], some .addMangaTitleS⟩

/-- `add_manga_title` (app.py lines 168-171). -/
def addMangaTitleH : Handler := fun _ _ _ i db ud =>
  match i with
  | .text s =>
    ⟨db, { ud with title := some s }, ["Great. Now enter a short description:"],
      some .addMangaDescS⟩
  | _ => ⟨db, ud, [], none⟩

/-- `add_manga_desc` (app.py lines 173-176). -/
def addMangaDescH : Handler := fun _ _ _ i db ud =>
  match i with
  | .text s =>
    ⟨db, { ud with description := some s }, ["Perfect. Now send me the cover image."],
      some .addMangaCoverS⟩
  | _ => ⟨db, ud, [], none⟩

/-- `add_manga_cover` (app.py lines 178-198): inserts the new `Manga` row;
a second row with an existing title violates the unique constraint on
`Manga.title`, the commit raises, the session rolls back and the error is
reported.  A missing session field raises `KeyError` inside the same `try`.
In every branch the `finally` clears `user_data` and `start` runs again
before `ConversationHandler.END` is returned. -/
def addMangaCoverH : Handler := fun relay admin actor i db ud =>
  match i with
  | .photo fid =>
    let base : DB × List String :=
      match ud.title, ud.description with
      | some t, some d =>
        if db.mangas.any (fun m => m.title = t) then (db, [errDupTitle])
        else
          ({ db with
              mangas := db.mangas ++ [⟨db.nextMangaId, t, d, fid⟩]
              nextMangaId := db.nextMangaId + 1 },
            ["✅ Success! `" ++ t ++ "` has been created."])
      | _, _ => (db, [errKeyMsg])
    let s := startH relay admin actor i base.1 emptyUD
    ⟨base.1, emptyUD, base.2 ++ s.msgs, some .ended⟩
  | _ => ⟨db, ud, [], none⟩

/-- `manage_manga_start` (app.py lines 201-212). -/
def manageMangaStartH : Handler := fun _ _ _ _ db ud =>
  if db.mangas.isEmpty then
    ⟨db, ud, ["No comics found. Add one first!", msgMenu], some .startRoutes⟩
  else ⟨db, ud, ["Select a comic to manage:"], some .manageSelectManga⟩

/-- `manage_action_menu` (app.py lines 214-230): stores the selected manga
id in `user_data`; an unparsable callback id or a vanished manga raises
(`ValueError` from `int`, `AttributeError` on `None.title`). -/
def manageActionMenuH : Handler := fun _ _ _ i db ud =>
  match i with
  | .callback d =>
    match ((splitUnderscore d).get? 1).bind parseNat with
    | none => ⟨db, ud, [], none⟩
    | some mid =>
      let ud2 := { ud with manga_id := some mid }
      match db.mangas.find? (fun m => m.id = mid) with
      | none => ⟨db, ud2, [], none⟩
      | some m => ⟨db, ud2, ["Managing `" ++ m.title ++ "`:"], some .manageActionMenuS⟩
  | _ => ⟨db, ud, [], none⟩

/-- `add_chapter_method` (app.py lines 233-240); building the back button
reads `user_data['manga_id']`. -/
def addChapterMethodH : Handler := fun _ _ _ _ db ud =>
  match ud.manga_id with
  | none => ⟨db, ud, [], none⟩
  | some _ => ⟨db, ud, ["How would you like to add chapters?"], some .addChapterMethodS⟩

/-- `add_chapter_manual_start` (app.py lines 243-245). -/
def addChapterManualStartH : Handler := fun _ _ _ _ db ud =>
  ⟨db, ud, ["Enter the chapter number (e.g., 1, 25.5):"], some .addChapterNumberS⟩

/-- `add_chapter_pages_start` (app.py lines 247-251). -/
def addChapterPagesStartH : Handler := fun _ _ _ i db ud =>
  match i with
  | .text s =>
    ⟨db, { ud with chapter_number := some s, pages := some [] },
      ["OK. Now send all page images for this chapter.\nSend /done when finished."],
      some .addChapterPagesS⟩
  | _ => ⟨db, ud, [], none⟩

/-- `add_chapter_page_collect` (app.py lines 253-256), with the
`setdefault('pages', [])`. -/
def addChapterPageCollectH : Handler := fun _ _ _ i db ud =>
  match i with
  | .photo fid =>
    let ps := (ud.pages.getD []) ++ [fid]
    ⟨db, { ud with pages := some ps },
      ["Page " ++ natToStr ps.length ++ " saved."], some .addChapterPagesS⟩
  | _ => ⟨db, ud, [], none⟩

/-- `add_chapter_manual_save` (app.py lines 258-276). -/
def addChapterManualSaveH : Handler := fun relay admin actor i db ud =>
  let base : DB × List String :=
    match ud.manga_id, ud.chapter_number, ud.pages with
    | some mid, some cnum, some ps =>
      let cid := db.nextChapterId
      ({ db with
          chapters := db.chapters ++ [⟨cid, mid, cnum⟩]
          pages := db.pages ++ ps.enum.map (fun pr => PageR.mk cid (pr.1 + 1) pr.2)
          nextChapterId := cid + 1 },
        ["✅ Chapter saved successfully!"])
    | _, _, _ => (db, [errKeyMsg])
  let s := startH relay admin actor i base.1 emptyUD
  ⟨base.1, emptyUD, base.2 ++ s.msgs, some .ended⟩

/-- `add_chapter_zip_start` (app.py lines 283-285). -/
def addChapterZipStartH : Handler := fun _ _ _ _ db ud =>
  ⟨db, ud, ["Please upload the `.zip` file now."], some .addChapterZipS⟩

/-- `add_chapter_zip_process` (app.py lines 287-348).  When no directory
qualifies, the handler returns before the `try` block: `user_data` is NOT
cleared on that path.  A missing `manga_id` raises `KeyError` inside the
`try` at the first chapter creation (modelled coarsely: reported after the
`Found ...` reply).  In every path `start` runs again and the conversation
ends. -/
def addChapterZipProcessH : Handler := fun relay admin actor i db ud =>
  match i with
  | .document dirs =>
    let chapterDirs := dirs.filter qualifies
    if chapterDirs.isEmpty then
      let s := startH relay admin actor i db ud
      ⟨db, ud, [errNoFolders] ++ s.msgs, some .ended⟩
    else
      match ud.manga_id with
      | some mid =>
        let acc := addChapterZipCore relay mid db dirs
        let s := startH relay admin actor i acc.db emptyUD
        ⟨acc.db, emptyUD, acc.msgs ++ s.msgs, some .ended⟩
      | none =>
        let s := startH relay admin actor i db emptyUD
        ⟨db, emptyUD, [foundMsg chapterDirs.length, errKeyMsg] ++ s.msgs, some .ended⟩
  | _ => ⟨db, ud, [], none⟩

/-- `delete_chapter_select` (app.py lines 351-370).  With no chapters the
code replies and then re-enters `manage_action_menu` with the stale
callback data `delete_chapter`, whose `int('chapter')` raises
`ValueError`; the state therefore does not change. -/
def deleteChapterSelectH : Handler := fun _ _ _ _ db ud =>
  match ud.manga_id with
  | none => ⟨db, ud, [], none⟩
  | some mid =>
    match db.mangas.find? (fun m => m.id = mid) with
    | none => ⟨db, ud, [], none⟩
    | some _ =>
      let chs := db.chapters.filter (fun c => c.manga_id = mid)
      if chs.isEmpty then ⟨db, ud, ["This comic has no chapters to delete."], none⟩
      else ⟨db, ud, ["Select a chapter to delete:"], some .deleteChapterSelectS⟩

/-- `delete_chapter_confirm` (app.py lines 372-392): cascade-deletes the
chapter, then rewrites the callback data to `manga_{id}` and re-enters
`manage_action_menu`. -/
def deleteChapterConfirmH : Handler := fun relay admin actor i db ud =>
  match i with
  | .callback d =>
    match ((splitUnderscore d).get? 1).bind parseNat with
    | none => ⟨db, ud, [], none⟩
    | some cid =>
      let delRes : DB × List String :=
        match db.chapters.find? (fun c => c.id = cid) with
        | some c =>
          (cascadeDeleteChapter db cid,
            ["✅ Chapter " ++ c.chapter_number ++ " has been deleted."])
        | none => (db, ["❌ Chapter not found."])
      match ud.manga_id with
      | none => ⟨delRes.1, ud, delRes.2, none⟩
      | some mid =>
        let r2 := manageActionMenuH relay admin actor
          (.callback ("manga_" ++ natToStr mid)) delRes.1 ud
        ⟨r2.db, r2.ud, delRes.2 ++ r2.msgs, r2.next⟩
  | _ => ⟨db, ud, [], none⟩

/-- `delete_manga_confirm` (app.py lines 395-406); building the keyboard
reads `user_data['manga_id']`. -/
def deleteMangaConfirmH : Handler := fun _ _ _ _ db ud =>
  match ud.manga_id with
  | none => ⟨db, ud, [], none⟩
  | some _ =>
    ⟨db, ud,
      ["⚠️ **Are you sure?** This will delete the entire comic and all its chapters. This action cannot be undone."],
      some .deleteMangaConfirmS⟩

/-- `delete_manga_execute` (app.py lines 408-426): cascade-deletes the
manga addressed by the callback data, then re-enters
`manage_manga_start`. -/
def deleteMangaExecuteH : Handler := fun relay admin actor i db ud =>
  match i with
  | .callback d =>
    match ((splitUnderscore d).get? 2).bind parseNat with
    | none => ⟨db, ud, [], none⟩
    | some mid =>
      let delRes : DB × List String :=
        match db.mangas.find? (fun m => m.id = mid) with
        | some m =>
          (cascadeDeleteManga db mid,
            ["✅ Comic `" ++ m.title ++ "` has been permanently deleted."])
        | none => (db, ["❌ Comic not found."])
      let r2 := manageMangaStartH relay admin actor i delRes.1 ud
      ⟨r2.db, r2.ud, delRes.2 ++ r2.msgs, r2.next⟩
  | _ => ⟨db, ud, [], none⟩

/-- `update_info_start` (app.py lines 429-431). -/
def updateInfoStartH : Handler := fun _ _ _ _ db ud =>
  ⟨db, ud, ["This feature is a work in progress!"], some .manageActionMenuS⟩

/-- `end_conversation` (app.py lines 434-437): the `/cancel` fallback. -/
def endConversationH : Handler := fun _ _ _ _ db _ =>
  ⟨db, emptyUD, [msgCancelled], some .ended⟩

/-! ### The `ConversationHandler` dispatch (app.py lines 450-494) -/

/-- The per-state handler lists, transcribed from the `states=` mapping of
`run_bot`.  `updateInfoSelect` and `updateInfoPrompt` are declared in the
source's `range(14)` but given no handlers; `ended` means no conversation
is active. -/
def handlersFor : ConvState → List (Matcher × Handler)
  | .startRoutes =>
    [(.cbExact "add_manga", addMangaStartH),
     (.cbExact "manage_manga", manageMangaStartH)]
  | .addMangaTitleS => [(.textNonCommand, addMangaTitleH)]
  | .addMangaDescS => [(.textNonCommand, addMangaDescH)]
  | .addMangaCoverS => [(.photoM, addMangaCoverH)]
  | .manageSelectManga =>
    [(.cbStarts "manga_", manageActionMenuH),
     (.cbExact "main_menu", toMainMenuH)]
  | .manageActionMenuS =>
    [(.cbExact "add_chapter", addChapterMethodH),
     (.cbExact "update_info", updateInfoStartH),
     (.cbExact "delete_chapter", deleteChapterSelectH),
     (.cbExact "delete_manga", deleteMangaConfirmH),
     (.cbExact "back_to_manage", manageMangaStartH)]
  | .addChapterMethodS =>
    [(.cbExact "zip_upload", addChapterZipStartH),
     (.cbExact "manual_upload", addChapterManualStartH),
     (.cbStarts "manga_", manageActionMenuH)]
  | .addChapterNumberS => [(.textNonCommand, addChapterPagesStartH)]
  | .addChapterPagesS =>
    [(.photoM, addChapterPageCollectH),
     (.commandM "done", addChapterManualSaveH)]
  | .addChapterZipS => [(.docZip, addChapterZipProcessH)]
  | .deleteChapterSelectS =>
    [(.cbStarts "delchap_", deleteChapterConfirmH),
     (.cbStarts "manga_", manageActionMenuH)]
  | .deleteMangaConfirmS =>
    [(.cbStarts "delmanga_yes_", deleteMangaExecuteH),
     (.cbStarts "manga_", manageActionMenuH)]
  | .updateInfoSelect => []
  | .updateInfoPrompt => []
  | .ended => []

/-- First handler whose filter accepts the update, as
python-telegram-bot tries the list in order. -/
def findHandler (i : Input) : List (Matcher × Handler) → Option Handler
  | [] => none
  | (m, h) :: rest => if m.accepts i then some h else findHandler i rest

/-- Result of dispatching one update while a conversation is in state `s`. -/
structure StepRes where
  db : DB
  ud : UserData
  msgs : List String
  state : ConvState
deriving DecidableEq

/-- One dispatch round of the conversation (app.py lines 450-494): try the
current state's handlers, then the single fallback
`CommandHandler("cancel", end_conversation)`; an unhandled update, or a
handler that raises, leaves everything as it was. -/
def step (relay : String → String) (admin actor : Nat) (s : ConvState)
    (i : Input) (db : DB) (ud : UserData) : StepRes :=
  match findHandler i (handlersFor s ++ [(.commandM "cancel", endConversationH)]) with
  | some h =>
    let r := h relay admin actor i db ud
    ⟨r.db, r.ud, r.msgs, r.next.getD s⟩
  | none => ⟨db, ud, [], s⟩

example :
    step id 1 1 .addChapterPagesS (.command "cancel") emptyDB
      { title := some "leftover" } =
    ⟨emptyDB, emptyUD, [msgCancelled], .ended⟩ := by decide

example :
    (step id 1 2 .addMangaCoverS (.photo "f") emptyDB
      { title := some "T", description := some "D" }).db ≠ emptyDB := by decide

/-! ### Example data for the specification's archive scenarios -/

/-- The three folders of the spec's ordering example, each containing one
image so that they qualify. -/
def exF10 : Folder := ⟨"Chapter 10", ["01.jpg"]⟩

def exF2 : Folder := ⟨"Chapter 2", ["01.jpg"]⟩

def exF15 : Folder := ⟨"Chapter 1.5", ["01.jpg"]⟩

/-- Every enumeration order of the three example folders. -/
def exPerms : List (List Folder) :=
  [[exF10, exF2, exF15], [exF10, exF15, exF2], [exF2, exF10, exF15],
   [exF2, exF15, exF10], [exF15, exF10, exF2], [exF15, exF2, exF10]]

/-! ### Facts about the decimal model and the sort relations -/

theorem pow10_pos (n : Nat) : 0 < pow10 n := by
  induction n with
  | zero => simp [pow10]
  | succ k ih => simp only [pow10]; omega

/-- The structural comparator agrees with the rational values. -/
theorem DecNum.leB_iff (a b : DecNum) : a.leB b = true ↔ a.val ≤ b.val := by
  have hb : (0 : ℚ) < (pow10 b.exp : ℕ) := by exact_mod_cast pow10_pos b.exp
  have ha : (0 : ℚ) < (pow10 a.exp : ℕ) := by exact_mod_cast pow10_pos a.exp
  unfold DecNum.leB DecNum.val
  rw [decide_eq_true_eq, Rat.mkRat_eq_div, Rat.mkRat_eq_div,
    div_le_div_iff₀ ha hb]
  constructor
  · intro h
    have h2 : ((a.num * pow10 b.exp : ℤ) : ℚ) ≤ ((b.num * pow10 a.exp : ℤ) : ℚ) := by
      exact_mod_cast h
    push_cast at h2
    linarith
  · intro h
    have h2 : ((a.num * pow10 b.exp : ℤ) : ℚ) ≤ ((b.num * pow10 a.exp : ℤ) : ℚ) := by
      push_cast
      linarith
    exact_mod_cast h2

instance : IsTotal Folder chapKeyLe := by
  constructor
  intro a b
  unfold chapKeyLe
  rw [DecNum.leB_iff, DecNum.leB_iff]
  exact le_total _ _

instance : IsTrans Folder chapKeyLe := by
  constructor
  intro a b c
  unfold chapKeyLe
  rw [DecNum.leB_iff, DecNum.leB_iff, DecNum.leB_iff]
  exact le_trans

theorem charListLe_total : ∀ a b : List Char, charListLe a b = true ∨ charListLe b a = true
  | [], _ => by left; rfl
  | _ :: _, [] => by right; rfl
  | a :: as, b :: bs => by
    simp only [charListLe]
    rcases Nat.lt_trichotomy a.toNat b.toNat with h | h | h
    · left; simp [h]
    · have h2 : ¬ a.toNat < b.toNat := by omega
      have h3 : ¬ b.toNat < a.toNat := by omega
      simp only [h2, h3, if_false]
      exact charListLe_total as bs
    · right; simp [h]

theorem charListLe_trans :
    ∀ a b c : List Char, charListLe a b = true → charListLe b c = true →
      charListLe a c = true
  | [], _, _ => by intro _ _; rfl
  | _ :: _, [], _ => by intro h _; simp [charListLe] at h
  | _ :: _, _ :: _, [] => by intro _ h; simp [charListLe] at h
  | a :: as, b :: bs, c :: cs => by
    simp only [charListLe]
    intro h1 h2
    have hba : ¬ b.toNat < a.toNat := by
      intro hcon
      have hab : ¬ a.toNat < b.toNat := by omega
      rw [if_neg hab, if_pos hcon] at h1
      exact Bool.false_ne_true h1
    have hcb : ¬ c.toNat < b.toNat := by
      intro hcon
      have hbc : ¬ b.toNat < c.toNat := by omega
      rw [if_neg hbc, if_pos hcon] at h2
      exact Bool.false_ne_true h2
    by_cases hac : a.toNat < c.toNat
    · rw [if_pos hac]
    · have hca : ¬ c.toNat < a.toNat := by omega
      rw [if_neg hac, if_neg hca]
      have hab : ¬ a.toNat < b.toNat := by omega
      have hbc : ¬ b.toNat < c.toNat := by omega
      rw [if_neg hab, if_neg hba] at h1
      rw [if_neg hbc, if_neg hcb] at h2
      exact charListLe_trans as bs cs h1 h2

instance : IsTotal String nameLe :=
  ⟨fun a b => charListLe_total a.data b.data⟩

instance : IsTrans String nameLe :=
  ⟨fun a b c => charListLe_trans a.data b.data c.data⟩

/-! ### Claim C1 -/

/-- C1: the ZIP importer processes qualifying chapter folders in ascending
order of the numeric value of the last digit-sequence-with-optional-decimal-
point token of each folder name (Python's `sorted` keyed by
`extract_number`): the processing order is always a permutation of the
qualifying folders that is pairwise nondecreasing in that numeric value,
and for every enumeration order of the folders `Chapter 10`, `Chapter 2`,
`Chapter 1.5` the chapters are attached to the comic in the order
1.5, 2, 10. -/
theorem C1_folders_processed_in_numeric_order :
    (∀ dirs : List Folder,
      List.Pairwise
        (fun a b => (extractNumber a.name).val ≤ (extractNumber b.name).val)
        (sortChapterDirs dirs)
      ∧ (sortChapterDirs dirs).Perm dirs)
    ∧ (∀ l ∈ exPerms,
        (addChapterZipCore id 1 emptyDB l).db.chapters.map ChapterR.chapter_number
          = ["1.5", "2.0", "10.0"]) := by
  constructor
  · intro dirs
    refine ⟨?_, List.perm_insertionSort chapKeyLe dirs⟩
    have hs := List.sorted_insertionSort chapKeyLe dirs
    exact hs.imp (fun h => ((extractNumber _).leB_iff (extractNumber _)).mp h)
  · intro l hl
    fin_cases hl <;> decide

/-- Witness for C1 at concrete inputs. -/
theorem C1_folders_processed_in_numeric_order_witness :
    (List.Pairwise
        (fun a b => (extractNumber a.name).val ≤ (extractNumber b.name).val)
        (sortChapterDirs [exF10, exF15])
      ∧ (sortChapterDirs [exF10, exF15]).Perm [exF10, exF15])
    ∧ (addChapterZipCore id 1 emptyDB [exF10, exF2, exF15]).db.chapters.map
        ChapterR.chapter_number = ["1.5", "2.0", "10.0"] :=
  ⟨C1_folders_processed_in_numeric_order.1 [exF10, exF15],
   C1_folders_processed_in_numeric_order.2 [exF10, exF2, exF15] (by decide)⟩

/-! ### Claim C3 -/

/-- In the per-folder loop, `session.commit()` calls, uploaded chapters and
appended chapter rows advance in lockstep. -/
theorem processFolders_commit_count (relay : String → String) (mid : Nat) :
    ∀ (l : List Folder) (acc : ImpAcc),
      (processFolders relay mid acc l).commits + acc.uploaded
          = (processFolders relay mid acc l).uploaded + acc.commits
      ∧ (processFolders relay mid acc l).db.chapters.length + acc.uploaded
          = (processFolders relay mid acc l).uploaded + acc.db.chapters.length
  | [], acc => by simp [processFolders]; omega
  | f :: rest, acc => by
    simp only [processFolders]
    by_cases h1 : (extractNumber f.name).num < 0
    · simp only [if_pos h1]
      exact processFolders_commit_count relay mid rest _
    · simp only [if_neg h1]
      by_cases h2 : (imageFiles f).isEmpty
      · simp only [if_pos h2]
        exact processFolders_commit_count relay mid rest _
      · simp only [if_neg h2]
        have ih := processFolders_commit_count relay mid rest
          { db :=
              { acc.db with
                chapters := acc.db.chapters ++
                  [⟨acc.db.nextChapterId, mid, chapterNumStr f.name⟩]
                pages := acc.db.pages ++ ((imageFiles f).enum.map
                  (fun pr => PageR.mk acc.db.nextChapterId (pr.1 + 1) (relay pr.2)))
                nextChapterId := acc.db.nextChapterId + 1 }
            uploaded := acc.uploaded + 1
            commits := acc.commits + 1
            msgs := acc.msgs ++ [uploadingMsg (chapterNumStr f.name) (imageFiles f).length] }
        simp only [List.length_append, List.length_cons, List.length_nil] at ih ⊢
        omega

/-- C3 as amended: during a ZIP import the store is committed once per
chapter actually created — `session.commit()` sits inside the per-folder
loop — so the number of commits equals the number of uploaded chapters,
which equals the number of chapter rows added; it is not a single commit
after all folders. -/
theorem C3_amended_commit_per_chapter (relay : String → String) (mid : Nat)
    (db : DB) (dirs : List Folder) :
    (addChapterZipCore relay mid db dirs).commits
        = (addChapterZipCore relay mid db dirs).uploaded
    ∧ (addChapterZipCore relay mid db dirs).db.chapters.length
        = (addChapterZipCore relay mid db dirs).uploaded + db.chapters.length := by
  unfold addChapterZipCore
  by_cases h : (dirs.filter qualifies).isEmpty
  · simp [h]
  · simp only [if_neg h]
    have hmain := processFolders_commit_count relay mid
      (sortChapterDirs (dirs.filter qualifies))
      { db := db, uploaded := 0, commits := 0
        msgs := [foundMsg (dirs.filter qualifies).length] }
    simp only [] at hmain
    constructor
    · omega
    · omega

/-- Witness for C3's amended theorem at a concrete archive. -/
theorem C3_amended_commit_per_chapter_witness :
    (addChapterZipCore id 1 emptyDB [exF10, exF2]).commits
        = (addChapterZipCore id 1 emptyDB [exF10, exF2]).uploaded
    ∧ (addChapterZipCore id 1 emptyDB [exF10, exF2]).db.chapters.length
        = (addChapterZipCore id 1 emptyDB [exF10, exF2]).uploaded
            + emptyDB.chapters.length :=
  C3_amended_commit_per_chapter id 1 emptyDB [exF10, exF2]

/-- C3 counterexample: an archive with two qualifying chapter folders is
committed twice — once per chapter — not exactly once after all folders. -/
theorem C3_counterexample_two_commits :
    (addChapterZipCore id 1 emptyDB [exF10, exF2]).commits = 2 ∧ (2 : Nat) ≠ 1 := by
  constructor
  · decide
  · decide

/-! ### Claim C7 -/

/-- C7 as amended: an archive with no qualifying chapter folders leaves the
store unchanged, performs no commit, and is reported to the actor with the
error-styled reply `❌ Error: Could not find any folders with images inside
the ZIP file.` (not a neutral `nothing to import` report); no exception is
raised and the conversation simply ends. -/
theorem C7_amended_no_folders_error_report (relay : String → String)
    (mid : Nat) (db : DB) (dirs : List Folder)
    (h : (dirs.filter qualifies).isEmpty = true) :
    (addChapterZipCore relay mid db dirs).db = db
    ∧ (addChapterZipCore relay mid db dirs).commits = 0
    ∧ (addChapterZipCore relay mid db dirs).msgs = [errNoFolders] := by
  unfold addChapterZipCore
  simp [h]

/-- Witness for C7's amended theorem. -/
theorem C7_amended_no_folders_error_report_witness :
    (addChapterZipCore id 1 emptyDB [⟨"notes", ["readme.txt"]⟩]).db = emptyDB
    ∧ (addChapterZipCore id 1 emptyDB [⟨"notes", ["readme.txt"]⟩]).commits = 0
    ∧ (addChapterZipCore id 1 emptyDB [⟨"notes", ["readme.txt"]⟩]).msgs
        = [errNoFolders] :=
  C7_amended_no_folders_error_report id 1 emptyDB [⟨"notes", ["readme.txt"]⟩]
    (by decide)

/-- C7 counterexample: on an archive without qualifying folders the sole
reply is the string `❌ Error: Could not find any folders with images
inside the ZIP file.` — a message presented as an error (its first nine
characters are the error marker), not a `nothing to import` report; the
store is indeed left unchanged. -/
theorem C7_counterexample_error_styled :
    (addChapterZipCore id 1 emptyDB [⟨"notes", ["cover.txt"]⟩]).msgs
        = ["❌ Error: Could not find any folders with images inside the ZIP file."]
    ∧ errNoFolders.data.take 9 = ("❌ Error: ").data
    ∧ (addChapterZipCore id 1 emptyDB [⟨"notes", ["cover.txt"]⟩]).db = emptyDB := by
  refine ⟨by decide, by decide, by decide⟩

/-! ### Claim C2 -/

/-- File ids and page numbers of the page rows built from an enumerated
image list (app.py lines 328-334). -/
theorem enumFrom_page_rows (cid : Nat) (relay : String → String) :
    ∀ (imgs : List String) (n : Nat),
      (((List.enumFrom n imgs).map
          (fun pr => PageR.mk cid (pr.1 + 1) (relay pr.2))).map PageR.file_id
        = imgs.map relay)
      ∧ (((List.enumFrom n imgs).map
          (fun pr => PageR.mk cid (pr.1 + 1) (relay pr.2))).map PageR.page_number
        = List.range' (n + 1) imgs.length)
  | [], n => by simp [List.enumFrom, List.range']
  | a :: l, n => by
    have ih := enumFrom_page_rows cid relay l (n + 1)
    simp only [List.enumFrom, List.map_cons, List.length_cons, List.range']
    exact ⟨by rw [ih.1], by rw [ih.2]⟩

/-- Importing an archive consisting of one qualifying folder whose name has
a numeric token: the pages attached are exactly the folder's sorted glob
matches, relayed in order and numbered from 1. -/
theorem singleFolderImport (relay : String → String) (mid : Nat) (f : Folder)
    (h1 : qualifies f = true) (h2 : ¬ (extractNumber f.name).num < 0) :
    ((addChapterZipCore relay mid emptyDB [f]).db.pages.map PageR.file_id
        = (imageFiles f).map relay)
    ∧ ((addChapterZipCore relay mid emptyDB [f]).db.pages.map PageR.page_number
        = List.range' 1 (imageFiles f).length) := by
  unfold addChapterZipCore
  have hq : List.filter qualifies [f] = [f] := by simp [h1]
  rw [hq]
  have hs : sortChapterDirs [f] = [f] := rfl
  simp only [List.isEmpty_cons, if_false, hs]
  simp only [processFolders, if_neg h2]
  by_cases h3 : (imageFiles f).isEmpty
  · have h4 : imageFiles f = [] := by
      cases hif : imageFiles f
      · rfl
      · rw [hif] at h3; simp at h3
    simp [if_pos h3, processFolders, emptyDB, h4]
  · simp only [if_neg h3, processFolders]
    simp only [emptyDB]
    have he := enumFrom_page_rows 1 relay (imageFiles f) 0
    simpa using he

/-- C2 as amended: within a qualifying folder the pages attached to the
created chapter are exactly the folder's files matching the glob patterns
`*.[jJ][pP][gG]` and `*.[pP][nN][gG]` (so `.jpg` and `.png` in any letter
case, but NOT `.jpeg`), sorted lexicographically by code point and numbered
consecutively from 1 in that order; `.jpeg` files make the folder qualify
but are not attached. -/
theorem C2_amended_pages_are_sorted_glob_matches (relay : String → String)
    (mid : Nat) (f : Folder) (h1 : qualifies f = true)
    (h2 : ¬ (extractNumber f.name).num < 0) :
    ((addChapterZipCore relay mid emptyDB [f]).db.pages.map PageR.file_id
        = (imageFiles f).map relay)
    ∧ ((addChapterZipCore relay mid emptyDB [f]).db.pages.map PageR.page_number
        = List.range' 1 (imageFiles f).length)
    ∧ (imageFiles f).Pairwise nameLe
    ∧ (imageFiles f).Perm
        (f.files.filter matchGlobJpg ++ f.files.filter matchGlobPng) := by
  refine ⟨(singleFolderImport relay mid f h1 h2).1,
    (singleFolderImport relay mid f h1 h2).2, ?_, ?_⟩
  · exact List.sorted_insertionSort nameLe _
  · exact List.perm_insertionSort nameLe _

/-- Witness for C2's amended theorem on the spec's example folder. -/
theorem C2_amended_pages_are_sorted_glob_matches_witness :
    ((addChapterZipCore id 1 emptyDB
        [⟨"Chapter 1", ["b.png", "a.jpg", "c.JPG"]⟩]).db.pages.map PageR.file_id
        = (imageFiles ⟨"Chapter 1", ["b.png", "a.jpg", "c.JPG"]⟩).map id)
    ∧ ((addChapterZipCore id 1 emptyDB
        [⟨"Chapter 1", ["b.png", "a.jpg", "c.JPG"]⟩]).db.pages.map PageR.page_number
        = List.range' 1 (imageFiles ⟨"Chapter 1", ["b.png", "a.jpg", "c.JPG"]⟩).length)
    ∧ (imageFiles ⟨"Chapter 1", ["b.png", "a.jpg", "c.JPG"]⟩).Pairwise nameLe
    ∧ (imageFiles ⟨"Chapter 1", ["b.png", "a.jpg", "c.JPG"]⟩).Perm
        ((["b.png", "a.jpg", "c.JPG"] : List String).filter matchGlobJpg
          ++ (["b.png", "a.jpg", "c.JPG"] : List String).filter matchGlobPng) :=
  C2_amended_pages_are_sorted_glob_matches id 1
    ⟨"Chapter 1", ["b.png", "a.jpg", "c.JPG"]⟩ (by decide) (by decide)

/-- C2 counterexample: a folder containing only `a.jpeg` qualifies as a
chapter folder (its extension is in the `.jpg/.jpeg/.png` set), yet
the importer attaches no chapter and no page at all — the glob patterns of
app.py line 318 do not match `.jpeg`, contradicting the claim that the
attached pages are exactly the folder's image files of those three
extensions. -/
theorem C2_counterexample_jpeg_dropped :
    qualifies ⟨"Chapter 1", ["a.jpeg"]⟩ = true
    ∧ isImageEntry "a.jpeg" = true
    ∧ ¬ (extractNumber "Chapter 1").num < 0
    ∧ (addChapterZipCore id 1 emptyDB [⟨"Chapter 1", ["a.jpeg"]⟩]).db = emptyDB
    ∧ (addChapterZipCore id 1 emptyDB [⟨"Chapter 1", ["a.jpeg"]⟩]).db.pages = [] := by
  refine ⟨by decide, by decide, by decide, by decide, by decide⟩

/-! ### Claim C9 -/

/-- C9: for an accepted folder the stored `chapter_number` is the decimal
string rendering of the float parsed from the folder name's last numeric
token — `str(extract_number(name))`, not the raw token; in particular a
folder `Chapter 10` yields the chapter row `10.0`, which differs from the
raw token `10`. -/
theorem C9_chapter_number_is_float_string (relay : String → String)
    (mid : Nat) (f : Folder) (h1 : qualifies f = true)
    (h2 : ¬ (extractNumber f.name).num < 0)
    (h3 : (imageFiles f).isEmpty = false) :
    ((addChapterZipCore relay mid emptyDB [f]).db.chapters.map
          ChapterR.chapter_number = [chapterNumStr f.name])
    ∧ chapterNumStr "Chapter 10" = "10.0"
    ∧ ("10.0" : String) ≠ "10" := by
  refine ⟨?_, by decide, by decide⟩
  unfold addChapterZipCore
  have hq : List.filter qualifies [f] = [f] := by simp [h1]
  rw [hq]
  have hs : sortChapterDirs [f] = [f] := rfl
  simp only [List.isEmpty_cons, if_false, hs]
  simp only [processFolders, if_neg h2, h3, if_false]
  simp [processFolders, emptyDB]

/-- Witness for C9 on the folder `Chapter 10`. -/
theorem C9_chapter_number_is_float_string_witness :
    ((addChapterZipCore id 1 emptyDB [exF10]).db.chapters.map
          ChapterR.chapter_number = [chapterNumStr "Chapter 10"])
    ∧ chapterNumStr "Chapter 10" = "10.0"
    ∧ ("10.0" : String) ≠ "10" :=
  C9_chapter_number_is_float_string id 1 exF10 (by decide) (by decide) (by decide)

/-! ### Claim C10 -/

/-- C10: deleting a comic removes all of its chapters and all pages of
those chapters, and deleting a chapter removes all of its pages; on a store
with referential integrity, both cascade deletions preserve it — no
surviving chapter row refers to the removed comic and no surviving page
row refers to a removed chapter. -/
theorem C10_cascade_delete_integrity (db : DB) (mid cid : Nat)
    (h : DBIntegrity db) :
    (∀ c ∈ (cascadeDeleteManga db mid).chapters, c.manga_id ≠ mid)
    ∧ (∀ m ∈ (cascadeDeleteManga db mid).mangas, m.id ≠ mid)
    ∧ (∀ c ∈ (cascadeDeleteChapter db cid).chapters, c.id ≠ cid)
    ∧ (∀ p ∈ (cascadeDeleteChapter db cid).pages, p.chapter_id ≠ cid)
    ∧ DBIntegrity (cascadeDeleteManga db mid)
    ∧ DBIntegrity (cascadeDeleteChapter db cid) := by
  obtain ⟨hc, hp⟩ := h
  refine ⟨?_, ?_, ?_, ?_, ⟨?_, ?_⟩, ⟨?_, ?_⟩⟩
  · intro c hmem
    simp only [cascadeDeleteManga, List.mem_filter, decide_eq_true_eq] at hmem
    exact hmem.2
  · intro m hmem
    simp only [cascadeDeleteManga, List.mem_filter, decide_eq_true_eq] at hmem
    exact hmem.2
  · intro c hmem
    simp only [cascadeDeleteChapter, List.mem_filter, decide_eq_true_eq] at hmem
    exact hmem.2
  · intro p hmem
    simp only [cascadeDeleteChapter, List.mem_filter, decide_eq_true_eq] at hmem
    exact hmem.2
  · -- chapters of the manga-cascaded store still point at surviving mangas
    intro c hmem
    simp only [cascadeDeleteManga, List.mem_filter, decide_eq_true_eq] at hmem
    obtain ⟨m, hm, hid⟩ := hc c hmem.1
    refine ⟨m, ?_, hid⟩
    simp only [cascadeDeleteManga, List.mem_filter, decide_eq_true_eq]
    refine ⟨hm, ?_⟩
    intro hcon
    exact hmem.2 (by rw [← hid, hcon])
  · -- pages of the manga-cascaded store still point at surviving chapters
    intro p hmem
    simp only [cascadeDeleteManga, List.mem_filter, decide_eq_true_eq] at hmem
    obtain ⟨hpm, hkeep⟩ := hmem
    obtain ⟨c0, hc0, hcid⟩ := hp p hpm
    refine ⟨c0, ?_, hcid⟩
    simp only [cascadeDeleteManga, List.mem_filter, decide_eq_true_eq]
    refine ⟨hc0, ?_⟩
    intro hcon
    have hdoomed : c0 ∈ db.chapters.filter (fun c => c.manga_id = mid) := by
      simp only [List.mem_filter, decide_eq_true_eq]
      exact ⟨hc0, hcon⟩
    exact hkeep (List.any_eq_true.mpr ⟨c0, hdoomed, by exact decide_eq_true hcid⟩)
  · -- chapters of the chapter-cascaded store: mangas are untouched
    intro c hmem
    simp only [cascadeDeleteChapter, List.mem_filter, decide_eq_true_eq] at hmem
    obtain ⟨m, hm, hid⟩ := hc c hmem.1
    exact ⟨m, hm, hid⟩
  · -- pages of the chapter-cascaded store still point at surviving chapters
    intro p hmem
    simp only [cascadeDeleteChapter, List.mem_filter, decide_eq_true_eq] at hmem
    obtain ⟨hpm, hne⟩ := hmem
    obtain ⟨c0, hc0, hcid⟩ := hp p hpm
    refine ⟨c0, ?_, hcid⟩
    simp only [cascadeDeleteChapter, List.mem_filter, decide_eq_true_eq]
    exact ⟨hc0, by rw [hcid]; exact hne⟩

/-- Witness for C10 on a concrete store with one manga, two chapters and
three pages. -/
theorem C10_cascade_delete_integrity_witness :
    (∀ c ∈ (cascadeDeleteManga
        ⟨[⟨1, "T", "D", "c"⟩], [⟨1, 1, "1.0"⟩, ⟨2, 1, "2.0"⟩],
          [⟨1, 1, "f1"⟩, ⟨1, 2, "f2"⟩, ⟨2, 1, "f3"⟩], 2, 3⟩ 1).chapters,
        c.manga_id ≠ 1)
    ∧ (∀ m ∈ (cascadeDeleteManga
        ⟨[⟨1, "T", "D", "c"⟩], [⟨1, 1, "1.0"⟩, ⟨2, 1, "2.0"⟩],
          [⟨1, 1, "f1"⟩, ⟨1, 2, "f2"⟩, ⟨2, 1, "f3"⟩], 2, 3⟩ 1).mangas,
        m.id ≠ 1)
    ∧ (∀ c ∈ (cascadeDeleteChapter
        ⟨[⟨1, "T", "D", "c"⟩], [⟨1, 1, "1.0"⟩, ⟨2, 1, "2.0"⟩],
          [⟨1, 1, "f1"⟩, ⟨1, 2, "f2"⟩, ⟨2, 1, "f3"⟩], 2, 3⟩ 2).chapters,
        c.id ≠ 2)
    ∧ (∀ p ∈ (cascadeDeleteChapter
        ⟨[⟨1, "T", "D", "c"⟩], [⟨1, 1, "1.0"⟩, ⟨2, 1, "2.0"⟩],
          [⟨1, 1, "f1"⟩, ⟨1, 2, "f2"⟩, ⟨2, 1, "f3"⟩], 2, 3⟩ 2).pages,
        p.chapter_id ≠ 2)
    ∧ DBIntegrity (cascadeDeleteManga
        ⟨[⟨1, "T", "D", "c"⟩], [⟨1, 1, "1.0"⟩, ⟨2, 1, "2.0"⟩],
          [⟨1, 1, "f1"⟩, ⟨1, 2, "f2"⟩, ⟨2, 1, "f3"⟩], 2, 3⟩ 1)
    ∧ DBIntegrity (cascadeDeleteChapter
        ⟨[⟨1, "T", "D", "c"⟩], [⟨1, 1, "1.0"⟩, ⟨2, 1, "2.0"⟩],
          [⟨1, 1, "f1"⟩, ⟨1, 2, "f2"⟩, ⟨2, 1, "f3"⟩], 2, 3⟩ 2) :=
  C10_cascade_delete_integrity
    ⟨[⟨1, "T", "D", "c"⟩], [⟨1, 1, "1.0"⟩, ⟨2, 1, "2.0"⟩],
      [⟨1, 1, "f1"⟩, ⟨1, 2, "f2"⟩, ⟨2, 1, "f3"⟩], 2, 3⟩ 1 2 (by decide)

/-! ### Claim C6 -/

/-- C6: from every conversation state, the `/cancel` input falls through
every state handler to the `end_conversation` fallback, which ends the
conversation, clears all collected session fields and leaves the store
untouched — no later session for the same actor can see the old fields. -/
theorem C6_cancel_clears_and_preserves (relay : String → String)
    (admin actor : Nat) (s : ConvState) (db : DB) (ud : UserData)
    (h : s ≠ ConvState.ended) :
    step relay admin actor s (.command "cancel") db ud
      = ⟨db, emptyUD, [msgCancelled], .ended⟩ := by
  cases s
  case ended => exact absurd rfl h
  all_goals rfl

/-- Witness for C6: cancelling in the page-collection state with leftover
session fields. -/
theorem C6_cancel_clears_and_preserves_witness :
    step id 1 1 .addChapterPagesS (.command "cancel") emptyDB
      { title := some "stale", manga_id := some 3, pages := some ["f1"] }
      = ⟨emptyDB, emptyUD, [msgCancelled], .ended⟩ :=
  C6_cancel_clears_and_preserves id 1 1 .addChapterPagesS emptyDB
    { title := some "stale", manga_id := some 3, pages := some ["f1"] }
    (by decide)

/-! ### Claim C5 -/

/-- C5 as amended: only the initial `/start` entry point checks the actor
against the configured `ADMIN_USER_ID`; an unauthorized `/start` receives
the denial reply and ends with store and session untouched, but the
in-conversation mutating handlers perform no identity check at all — the
store they produce is the same whatever the actor id is. -/
theorem C5_amended_only_start_checks :
    (∀ (relay : String → String) (admin actor : Nat) (i : Input) (db : DB)
        (ud : UserData), actor ≠ admin →
      startH relay admin actor i db ud = ⟨db, ud, [msgUnauthorized], some .ended⟩)
    ∧ (∀ (relay : String → String) (admin a b : Nat) (i : Input) (db : DB)
        (ud : UserData),
      (addMangaCoverH relay admin a i db ud).db
        = (addMangaCoverH relay admin b i db ud).db
      ∧ (addChapterManualSaveH relay admin a i db ud).db
        = (addChapterManualSaveH relay admin b i db ud).db
      ∧ (addChapterZipProcessH relay admin a i db ud).db
        = (addChapterZipProcessH relay admin b i db ud).db
      ∧ (deleteMangaExecuteH relay admin a i db ud).db
        = (deleteMangaExecuteH relay admin b i db ud).db
      ∧ (deleteChapterConfirmH relay admin a i db ud).db
        = (deleteChapterConfirmH relay admin b i db ud).db) := by
  constructor
  · intro relay admin actor i db ud hne
    simp [startH, hne]
  · intro relay admin a b i db ud
    refine ⟨?_, rfl, ?_, ?_, ?_⟩
    · cases i <;> rfl
    · cases i with
      | document dirs =>
        simp only [addChapterZipProcessH]
        by_cases h : (dirs.filter qualifies).isEmpty
        · simp [h, startH]
        · simp only [h, if_false]
          cases ud.manga_id <;> rfl
      | text s => rfl
      | command n => rfl
      | photo fid => rfl
      | callback d => rfl
    · cases i with
      | callback d =>
        simp only [deleteMangaExecuteH]
        cases ((splitUnderscore d).get? 2).bind parseNat <;> rfl
      | text s => rfl
      | command n => rfl
      | photo fid => rfl
      | document dirs => rfl
    · cases i with
      | callback d =>
        simp only [deleteChapterConfirmH]
        cases ((splitUnderscore d).get? 1).bind parseNat with
        | none => rfl
        | some cid =>
          cases ud.manga_id <;> rfl
      | text s => rfl
      | command n => rfl
      | photo fid => rfl
      | document dirs => rfl

/-- Witness for C5's amended theorem. -/
theorem C5_amended_only_start_checks_witness :
    startH id 1 2 (.photo "x") emptyDB emptyUD
        = ⟨emptyDB, emptyUD, [msgUnauthorized], some .ended⟩
    ∧ (addMangaCoverH id 1 5 (.photo "x") emptyDB emptyUD).db
        = (addMangaCoverH id 1 7 (.photo "x") emptyDB emptyUD).db :=
  ⟨C5_amended_only_start_checks.1 id 1 2 (.photo "x") emptyDB emptyUD (by decide),
   (C5_amended_only_start_checks.2 id 1 5 7 (.photo "x") emptyDB emptyUD).1⟩

/-- C5 counterexample: the actor `2` is not the configured admin `1`, yet
dispatching a cover photo in the cover-collection state inserts a comic
into the store — the mutating handler runs without any identity check, so
the store is not left unchanged for unauthorized actors. -/
theorem C5_counterexample_unauthorized_mutation :
    (2 : Nat) ≠ 1
    ∧ (step id 1 2 .addMangaCoverS (.photo "f") emptyDB
          { title := some "T", description := some "D" }).db.mangas
        = [⟨1, "T", "D", "f"⟩] := by
  refine ⟨by decide, by decide⟩

/-! ### Claim C4 -/

/-- C4 as amended: the store keys comics by exact title under a unique
constraint; there is no slug normalization, so distinct titles never
collide (see the counterexample theorem: two distinct titles with equal
spec-slugs are both stored).  Creating a comic whose title exactly equals
an existing one does not overwrite anything: the transaction rolls back,
the store is unchanged, and an error reply — not silence — is sent. -/
theorem C4_amended_duplicate_title_rejected (relay : String → String)
    (admin actor : Nat) (fid : String) (db : DB) (t d : String)
    (h : db.mangas.any (fun m => m.title = t) = true) :
    (addMangaCoverH relay admin actor (.photo fid) db
        ⟨some t, some d, none, none, none⟩).db = db
    ∧ (addMangaCoverH relay admin actor (.photo fid) db
        ⟨some t, some d, none, none, none⟩).msgs.head? = some errDupTitle := by
  simp only [addMangaCoverH, h, if_true, startH]
  by_cases hadm : actor ≠ admin <;> simp [hadm]

/-- Witness for C4's amended theorem: re-creating the already-present
title `A`. -/
theorem C4_amended_duplicate_title_rejected_witness :
    (addMangaCoverH id 1 1 (.photo "c2")
        ⟨[⟨1, "A", "D", "c1"⟩], [], [], 2, 1⟩
        ⟨some "A", some "D2", none, none, none⟩).db
      = ⟨[⟨1, "A", "D", "c1"⟩], [], [], 2, 1⟩
    ∧ (addMangaCoverH id 1 1 (.photo "c2")
        ⟨[⟨1, "A", "D", "c1"⟩], [], [], 2, 1⟩
        ⟨some "A", some "D2", none, none, none⟩).msgs.head? = some errDupTitle :=
  C4_amended_duplicate_title_rejected id 1 1 "c2"
    ⟨[⟨1, "A", "D", "c1"⟩], [], [], 2, 1⟩ "A" "D2" (by decide)

/-- C4 counterexample: `A B` and `A-b` are distinct titles that normalize
to the same slug `a-b`, yet creating both stores two separate records —
the first is not overwritten — and the second create replies with its
success message, so no collision handling (silent or otherwise) exists. -/
theorem C4_counterexample_no_slug_collision :
    slugify "A B" = slugify "A-b"
    ∧ ("A B" : String) ≠ "A-b"
    ∧ ((addMangaCoverH id 1 1 (.photo "c2")
          (addMangaCoverH id 1 1 (.photo "c1") emptyDB
            ⟨some "A B", some "D1", none, none, none⟩).db
          ⟨some "A-b", some "D2", none, none, none⟩).db.mangas.map MangaR.title
        = ["A B", "A-b"])
    ∧ ((addMangaCoverH id 1 1 (.photo "c2")
          (addMangaCoverH id 1 1 (.photo "c1") emptyDB
            ⟨some "A B", some "D1", none, none, none⟩).db
          ⟨some "A-b", some "D2", none, none, none⟩).msgs.head?
        = some "✅ Success! `A-b` has been created.") := by
  refine ⟨by decide, by decide, by decide, by decide⟩

/-! ### Claim C8 -/

/-- No two adjacent hyphens. -/
def NoHH (a b : Char) : Prop := ¬ (a = '-' ∧ b = '-')

theorem alnum_ne_hyphen {c : Char} (h : isAlnumA c = true) : c ≠ '-' := by
  intro hc
  subst hc
  exact absurd h (by decide)

theorem char_toNat_ofNat_valid (n : Nat) (h : n.isValidChar) :
    (Char.ofNat n).toNat = n := by
  unfold Char.ofNat
  rw [dif_pos h]
  rfl

/-- Lowering is idempotent on characters. -/
theorem lowerCh_idem (c : Char) : lowerCh (lowerCh c) = lowerCh c := by
  unfold lowerCh Char.toLower
  by_cases h : c.toNat ≥ 65 ∧ c.toNat ≤ 90
  · rw [if_pos h]
    have hv : (c.toNat + 32).isValidChar := Or.inl (by omega)
    have ht : (Char.ofNat (c.toNat + 32)).toNat = c.toNat + 32 :=
      char_toNat_ofNat_valid _ hv
    rw [ht]
    have : ¬ (c.toNat + 32 ≥ 65 ∧ c.toNat + 32 ≤ 90) := by omega
    rw [if_neg this]
  · rw [if_neg h, if_neg h]

/-- Every character the scanner emits is a hyphen or an alphanumeric
character of the input. -/
theorem slugAux_chars :
    ∀ (l : List Char) (b : Bool) (c : Char), c ∈ slugAux b l →
      c = '-' ∨ (isAlnumA c = true ∧ c ∈ l)
  | [], b, c => by simp [slugAux]
  | x :: xs, b, c => by
    simp only [slugAux]
    by_cases hx : isAlnumA x = true
    · rw [if_pos hx]
      intro hmem
      rcases List.mem_cons.mp hmem with h | h
      · subst h
        exact Or.inr ⟨hx, List.mem_cons_self _ _⟩
      · rcases slugAux_chars xs false c h with h2 | h2
        · exact Or.inl h2
        · exact Or.inr ⟨h2.1, List.mem_cons_of_mem _ h2.2⟩
    · rw [if_neg hx]
      by_cases hb : b = true
      · rw [if_pos hb]
        intro hmem
        rcases slugAux_chars xs true c hmem with h2 | h2
        · exact Or.inl h2
        · exact Or.inr ⟨h2.1, List.mem_cons_of_mem _ h2.2⟩
      · rw [if_neg hb]
        intro hmem
        rcases List.mem_cons.mp hmem with h | h
        · exact Or.inl h
        · rcases slugAux_chars xs true c h with h2 | h2
          · exact Or.inl h2
          · exact Or.inr ⟨h2.1, List.mem_cons_of_mem _ h2.2⟩

/-- The scanner never emits two adjacent hyphens, and in the in-run state
its output never begins with a hyphen. -/
theorem slugAux_chain :
    ∀ l : List Char,
      List.Chain' NoHH (slugAux false l)
      ∧ (List.Chain' NoHH (slugAux true l)
        ∧ ∀ c, (slugAux true l).head? = some c → c ≠ '-')
  | [] => by
    refine ⟨List.chain'_nil, List.chain'_nil, ?_⟩
    intro c h
    simp [slugAux] at h
  | x :: xs => by
    obtain ⟨ihF, ihT, ihH⟩ := slugAux_chain xs
    by_cases hx : isAlnumA x = true
    · have hxh : x ≠ '-' := alnum_ne_hyphen hx
      have hcons : List.Chain' NoHH (x :: slugAux false xs) := by
        rw [List.chain'_cons']
        exact ⟨fun y _ => fun hcon => hxh hcon.1, ihF⟩
      refine ⟨?_, ?_, ?_⟩
      · simp only [slugAux, if_pos hx]
        exact hcons
      · simp only [slugAux, if_pos hx]
        exact hcons
      · simp only [slugAux, if_pos hx]
        intro c hc
        rw [List.head?_cons, Option.some.injEq] at hc
        subst hc
        exact hxh
    · have hhyph : List.Chain' NoHH ('-' :: slugAux true xs) := by
        rw [List.chain'_cons']
        refine ⟨?_, ihT⟩
        intro y hy
        intro hcon
        exact ihH y hy hcon.2
      refine ⟨?_, ?_, ?_⟩
      · simp only [slugAux, if_neg hx, if_neg (Bool.false_ne_true)]
        exact hhyph
      · simp only [slugAux, if_neg hx, if_pos rfl]
        exact ihT
      · simp only [slugAux, if_neg hx, if_pos rfl]
        exact ihH

/-- On a list whose characters are alphanumeric or hyphens with no two
adjacent hyphens, the scanner is the identity (in the in-run state,
provided the list does not begin with a hyphen). -/
theorem slugAux_id :
    ∀ l : List Char,
      (∀ c ∈ l, isAlnumA c = true ∨ c = '-') → List.Chain' NoHH l →
      slugAux false l = l
      ∧ ((∀ c, l.head? = some c → c ≠ '-') → slugAux true l = l)
  | [] => by intro _ _; exact ⟨rfl, fun _ => rfl⟩
  | x :: xs => by
    intro hgood hchain
    have hgood' : ∀ c ∈ xs, isAlnumA c = true ∨ c = '-' :=
      fun c hc => hgood c (List.mem_cons_of_mem _ hc)
    have hchain' : List.Chain' NoHH xs := hchain.tail
    obtain ⟨ihF, ihT⟩ := slugAux_id xs hgood' hchain'
    rcases hgood x (List.mem_cons_self _ _) with hx | hx
    · constructor
      · simp only [slugAux, if_pos hx, ihF]
      · intro _
        simp only [slugAux, if_pos hx, ihF]
    · subst hx
      have hxna : ¬ isAlnumA '-' = true := by decide
      constructor
      · simp only [slugAux, if_neg hxna, if_neg (Bool.false_ne_true)]
        have hhead : ∀ c, xs.head? = some c → c ≠ '-' := by
          intro c hc hcon
          have := (List.chain'_cons'.mp hchain).1 c hc
          exact this ⟨rfl, hcon⟩
        rw [ihT hhead]
      · intro hno
        exact absurd rfl (hno '-' (by rw [List.head?_cons]))

/-- `NoHH` chains survive reversal. -/
theorem chain_noHH_reverse {m : List Char} (h : List.Chain' NoHH m) :
    List.Chain' NoHH m.reverse :=
  List.chain'_reverse.mpr (h.imp (fun _ _ hab => fun hcon => hab ⟨hcon.2, hcon.1⟩))

/-- `stripHyphens` keeps only characters of its input. -/
theorem stripHyphens_subset {c : Char} {l : List Char}
    (h : c ∈ stripHyphens l) : c ∈ l := by
  unfold stripHyphens at h
  rw [List.mem_reverse] at h
  have h2 := (List.dropWhile_sublist _).subset h
  rw [List.mem_reverse] at h2
  exact (List.dropWhile_sublist _).subset h2

/-- `stripHyphens` preserves `NoHH` chains. -/
theorem stripHyphens_chain {l : List Char} (h : List.Chain' NoHH l) :
    List.Chain' NoHH (stripHyphens l) := by
  unfold stripHyphens
  have h1 : List.Chain' NoHH (l.dropWhile (· = '-')) :=
    h.suffix (List.dropWhile_suffix _)
  have h2 := chain_noHH_reverse h1
  have h3 : List.Chain' NoHH ((l.dropWhile (· = '-')).reverse.dropWhile (· = '-')) :=
    h2.suffix (List.dropWhile_suffix _)
  exact chain_noHH_reverse h3

/-- The head of a `dropWhile` result fails the predicate. -/
theorem dropWhile_head_false {p : α → Bool} :
    ∀ (l : List α) (c : α), (l.dropWhile p).head? = some c → p c = false
  | [], c => by simp
  | x :: xs, c => by
    rw [List.dropWhile_cons]
    by_cases h : p x = true
    · rw [if_pos h]
      exact dropWhile_head_false xs c
    · rw [if_neg h]
      intro hc
      rw [List.head?_cons, Option.some.injEq] at hc
      subst hc
      exact Bool.not_eq_true _ ▸ Bool.of_not_eq_true h

/-- `dropWhile` is the identity when the head already fails the
predicate. -/
theorem dropWhile_eq_self_of_head {p : α → Bool} (l : List α)
    (h : ∀ c, l.head? = some c → p c = false) : l.dropWhile p = l := by
  cases l with
  | nil => rfl
  | cons x xs =>
    rw [List.dropWhile_cons, if_neg]
    rw [h x (by rw [List.head?_cons])]
    exact Bool.false_ne_true

/-- A nonempty suffix has the same last element. -/
theorem getLast?_of_suffix {l w : List α} (h : l <:+ w) (hne : l ≠ []) :
    l.getLast? = w.getLast? := by
  obtain ⟨t, rfl⟩ := h
  exact (List.getLast?_append_of_ne_nil t hne).symm

/-- After `stripHyphens`, neither end is a hyphen. -/
theorem stripHyphens_ends (l : List Char) :
    (∀ c, (stripHyphens l).head? = some c → c ≠ '-')
    ∧ (∀ c, (stripHyphens l).getLast? = some c → c ≠ '-') := by
  unfold stripHyphens
  constructor
  · intro c hc hcon
    subst hcon
    rw [List.head?_reverse] at hc
    have hzne : (l.dropWhile (· = '-')).reverse.dropWhile (· = '-') ≠ [] := by
      intro hz
      rw [hz] at hc
      exact Option.noConfusion hc
    rw [getLast?_of_suffix (List.dropWhile_suffix _) hzne,
      List.getLast?_reverse] at hc
    have := dropWhile_head_false _ _ hc
    simp at this
  · intro c hc hcon
    subst hcon
    rw [List.getLast?_reverse] at hc
    have := dropWhile_head_false _ _ hc
    simp at this

/-- `stripHyphens` is idempotent. -/
theorem stripHyphens_idem (l : List Char) :
    stripHyphens (stripHyphens l) = stripHyphens l := by
  obtain ⟨hhead, hlast⟩ := stripHyphens_ends l
  have h1 : (stripHyphens l).dropWhile (· = '-') = stripHyphens l := by
    apply dropWhile_eq_self_of_head
    intro c hc
    have := hhead c hc
    simpa using this
  have h2 : ((stripHyphens l).reverse).dropWhile (· = '-')
      = (stripHyphens l).reverse := by
    apply dropWhile_eq_self_of_head
    intro c hc
    rw [List.head?_reverse] at hc
    have := hlast c hc
    simpa using this
  show (((stripHyphens l).dropWhile (· = '-')).reverse.dropWhile (· = '-')).reverse
      = stripHyphens l
  rw [h1, h2, List.reverse_reverse]

/-- A map whose function fixes every member is the identity. -/
theorem map_fix {f : α → α} :
    ∀ l : List α, (∀ c ∈ l, f c = c) → l.map f = l
  | [] => by intro _; rfl
  | x :: xs => by
    intro h
    rw [List.map_cons, h x (List.mem_cons_self _ _),
      map_fix xs (fun c hc => h c (List.mem_cons_of_mem _ hc))]

/-- C8: the slug generator is idempotent — for every title `t`,
`slugify (slugify t) = slugify t` (slugify modelled from the spec, as the
source contains no slug logic). -/
theorem C8_slugify_idempotent (t : String) : slugify (slugify t) = slugify t := by
  unfold slugify
  have hdata : (String.mk (stripHyphens (slugAux false (t.data.map lowerCh)))).data
      = stripHyphens (slugAux false (t.data.map lowerCh)) := rfl
  rw [hdata]
  have hchars : ∀ c ∈ stripHyphens (slugAux false (t.data.map lowerCh)),
      c = '-' ∨ (isAlnumA c = true ∧ c ∈ t.data.map lowerCh) :=
    fun c hc => slugAux_chars _ false c (stripHyphens_subset hc)
  have hmap : (stripHyphens (slugAux false (t.data.map lowerCh))).map lowerCh
      = stripHyphens (slugAux false (t.data.map lowerCh)) := by
    apply map_fix
    intro c hc
    rcases hchars c hc with h | h
    · subst h; decide
    · obtain ⟨a, _, ha⟩ := List.mem_map.mp h.2
      rw [← ha]
      exact lowerCh_idem a
  rw [hmap]
  have hgood : ∀ c ∈ stripHyphens (slugAux false (t.data.map lowerCh)),
      isAlnumA c = true ∨ c = '-' := by
    intro c hc
    rcases hchars c hc with h | h
    · exact Or.inr h
    · exact Or.inl h.1
  have hchain : List.Chain' NoHH (stripHyphens (slugAux false (t.data.map lowerCh))) :=
    stripHyphens_chain (slugAux_chain _).1
  rw [(slugAux_id _ hgood hchain).1, stripHyphens_idem]

/-- Witness for C8 on a concrete title. -/
theorem C8_slugify_idempotent_witness :
    slugify (slugify "  Hello, World!  ") = slugify "  Hello, World!  " :=
  C8_slugify_idempotent "  Hello, World!  "
